import Mathlib

/-!
Verification development for the `portableapps` Go helper library
(`src/main.go`): a shallow embedding of its command runner (`ExecCmd`),
registry export/import helpers (`ExportRegKey`, `ImportRegKey`) and the
path joining helper (`PathJoin`), together with theorems settling the
specification's claims about them.

The operating system is modelled as an explicit `World` value: a function
giving the outcome of each attempted process spawn, a file-existence
predicate for `os.Stat`, and the current wall-clock time read by
`time.Now()`.  Effectful functions return the list of spawned processes
and emitted log entries alongside their result; `Log.Fatalf` (which
writes a log line and aborts the process) is modelled by returning
`Except.error`.
-/

namespace Portableapps

/-- Go `unicode.IsSpace` on a single character (the set of Unicode
white-space code points used by `strings.TrimSpace`). -/
def goIsSpace (c : Char) : Bool :=
  let n := c.toNat
  n == 9 || n == 10 || n == 11 || n == 12 || n == 13 || n == 32 ||
  n == 133 || n == 160 || n == 5760 || (8192 ≤ n && n ≤ 8202) ||
  n == 8232 || n == 8233 || n == 8239 || n == 8287 || n == 12288

/-- Go `strings.TrimSpace`: removes leading and trailing white space. -/
def goTrimSpace (s : String) : String :=
  String.mk (((s.data.dropWhile goIsSpace).reverse.dropWhile goIsSpace).reverse)

/-- `CmdOptions` of `main.go`: options of a command. -/
structure CmdOptions where
  Command : String
  Args : List String
  WorkingDir : String
  HideWindow : Bool
deriving DecidableEq

/-- `CmdResult` of `main.go`: result of a command. -/
structure CmdResult where
  Options : CmdOptions
  ExitCode : Nat
  Stdout : String
  Stderr : String
deriving DecidableEq

/-- `RegExportImport` of `main.go`: a registry key, an architecture view
token and a transfer file path. -/
structure RegExportImport where
  Key : String
  Arch : String
  File : String
deriving DecidableEq

/-- The wall-clock instant returned by Go `time.Now()`, to nanosecond
precision (the sub-second part is dropped by the layout
`"20060102150405"`). -/
structure GoTime where
  year : Nat
  month : Nat
  day : Nat
  hour : Nat
  minute : Nat
  second : Nat
  nanos : Nat
deriving DecidableEq

/-- Zero-padded two-digit decimal field of Go time layout (`"01"`, `"02"`,
`"15"`, `"04"`, `"05"`). -/
def pad2 (n : Nat) : String :=
  if n < 10 then "0" ++ toString n else toString n

/-- Zero-padded four-digit decimal year of Go time layout `"2006"`. -/
def pad4 (n : Nat) : String :=
  if n < 10 then "000" ++ toString n
  else if n < 100 then "00" ++ toString n
  else if n < 1000 then "0" ++ toString n
  else toString n

/-- Go `time.Now().Format("20060102150405")`: year, month, day, hour,
minute and second concatenated with no separators. -/
def formatTimestamp (t : GoTime) : String :=
  pad4 t.year ++ pad2 t.month ++ pad2 t.day ++
    pad2 t.hour ++ pad2 t.minute ++ pad2 t.second

/-- The process the command runner asks the OS to spawn: executable name,
argument vector, optional working directory (`command.Dir` is only set
when `options.WorkingDir` is nonempty) and the `HideWindow` flag of
`syscall.SysProcAttr`. -/
structure SpawnedProcess where
  command : String
  args : List String
  dir : Option String
  hideWindow : Bool
deriving DecidableEq

/-- Outcome of an attempted spawn: `command.Start()` fails with an OS
error, or the child runs to termination with a raw exit status and the
raw bytes written to its standard output and standard error. -/
inductive SpawnOutcome where
  | launchFailure (osError : String)
  | terminated (status : Nat) (stdoutBytes stderrBytes : String)
deriving DecidableEq

/-- The ambient operating system state an invocation runs against. -/
structure World where
  spawn : SpawnedProcess → SpawnOutcome
  statOk : String → Bool
  now : GoTime

/-- A line written through the logger, tagged with its level.  A `fatal`
entry is written immediately before the process terminates. -/
inductive LogEntry where
  | info (msg : String)
  | error (msg : String)
  | fatal (msg : String)
deriving DecidableEq

/-- The observable side effects of an invocation: processes spawned (in
order) and log lines written (in order). -/
structure Effects where
  spawns : List SpawnedProcess
  logs : List LogEntry
deriving DecidableEq

/-- The `SpawnedProcess` assembled by `ExecCmd` from its options. -/
def spawnOf (options : CmdOptions) : SpawnedProcess :=
  { command := options.Command
    args := options.Args
    dir := if options.WorkingDir = "" then none else some options.WorkingDir
    hideWindow := options.HideWindow }

/-- The `Log.Infof("Exec %s %s", ...)` line written by `ExecCmd`. -/
def execLogEntry (options : CmdOptions) : LogEntry :=
  LogEntry.info ("Exec " ++ options.Command ++ " " ++
    String.intercalate " " options.Args)

/-- `ExecCmd` of `main.go`: spawn the process described by `options`,
wait for it, and return its exit code (a `uint32`, hence the reduction
modulo `2 ^ 32`) and trimmed output buffers; if `command.Start()` fails
the OS error is returned and no result is produced. -/
def ExecCmd (w : World) (options : CmdOptions) :
    Effects × Except String CmdResult :=
  match w.spawn (spawnOf options) with
  | SpawnOutcome.launchFailure osError =>
      (⟨[spawnOf options], [execLogEntry options]⟩, Except.error osError)
  | SpawnOutcome.terminated status out errOut =>
      (⟨[spawnOf options], [execLogEntry options]⟩,
       Except.ok
         { Options := options
           ExitCode := status % 4294967296
           Stdout := goTrimSpace out
           Stderr := goTrimSpace errOut })

/-- The command options built by `ExportRegKey`:
`reg export <key> <file> /y /reg:<arch>`, window hidden. -/
def exportOptions (reg : RegExportImport) : CmdOptions :=
  { Command := "reg"
    Args := ["export", reg.Key, reg.File, "/y", "/reg:" ++ reg.Arch]
    WorkingDir := ""
    HideWindow := true }

/-- The command options built by `ImportRegKey` for the import step:
`reg import <file> /reg:<arch>`, window hidden. -/
def importOptions (reg : RegExportImport) : CmdOptions :=
  { Command := "reg"
    Args := ["import", reg.File, "/reg:" ++ reg.Arch]
    WorkingDir := ""
    HideWindow := true }

/-- The error lines logged when a registry command exits non-zero: the
exit code, then the trimmed stderr text (with a trailing newline) when
nonempty. -/
def softFailLogs (cmdResult : CmdResult) : List LogEntry :=
  if cmdResult.ExitCode ≠ 0 then
    LogEntry.error (toString cmdResult.ExitCode) ::
      (if cmdResult.Stderr.length > 0 then
        [LogEntry.error (cmdResult.Stderr ++ "\n")]
      else [])
  else []

/-- `ExportRegKey` of `main.go`: run `reg export`; a launch failure is
fatal (`Log.Fatalf`), a non-zero exit is only logged. -/
def ExportRegKey (w : World) (reg : RegExportImport) :
    Effects × Except String Unit :=
  match ExecCmd w (exportOptions reg) with
  | (eff, Except.error err) =>
      let msg := "Cannot export registry key \x27" ++ reg.Key ++ "\x27: " ++ err
      (⟨eff.spawns, eff.logs ++ [LogEntry.fatal msg]⟩, Except.error msg)
  | (eff, Except.ok cmdResult) =>
      (⟨eff.spawns, eff.logs ++ softFailLogs cmdResult⟩, Except.ok ())

/-- The backup transfer built by `ImportRegKey`: same key and
architecture, file suffixed with the formatted current time. -/
def backupTransfer (t : GoTime) (reg : RegExportImport) : RegExportImport :=
  { Key := reg.Key
    Arch := reg.Arch
    File := reg.File ++ "." ++ formatTimestamp t }

/-- `ImportRegKey` of `main.go`: first export the current key to a
timestamp-suffixed backup file, then — only if `os.Stat(reg.File)`
succeeds — run `reg import`; a launch failure is fatal, a non-zero exit
is only logged. -/
def ImportRegKey (w : World) (reg : RegExportImport) :
    Effects × Except String Unit :=
  match ExportRegKey w (backupTransfer w.now reg) with
  | (eff1, Except.error e) => (eff1, Except.error e)
  | (eff1, Except.ok _) =>
      if w.statOk reg.File then
        match ExecCmd w (importOptions reg) with
        | (eff2, Except.error err) =>
            let msg :=
              "Cannot import registry file \x27" ++ reg.File ++ "\x27: " ++ err
            (⟨eff1.spawns ++ eff2.spawns,
              eff1.logs ++ eff2.logs ++ [LogEntry.fatal msg]⟩,
             Except.error msg)
        | (eff2, Except.ok cmdResult) =>
            (⟨eff1.spawns ++ eff2.spawns,
              eff1.logs ++ eff2.logs ++ softFailLogs cmdResult⟩,
             Except.ok ())
      else (eff1, Except.ok ())

/-- `PathJoin` of `main.go`: return from the first nonempty element the
join of the remaining elements with a backslash, or the empty string. -/
def PathJoin : List String → String
  | [] => ""
  | e :: rest =>
      if e ≠ "" then String.intercalate "\\" (e :: rest) else PathJoin rest

/-- A concrete transfer used by witnesses. -/
def regSoft : RegExportImport :=
  ⟨"HKCU\\Software\\Soft", "64", "C:\\soft.reg"⟩

/-- A concrete world where every export command exits 5 writing `boom`
to stderr and every import command exits 7 writing `bad` to stderr. -/
def wSoft : World :=
  { spawn := fun p =>
      if p.args.head? = some "import" then SpawnOutcome.terminated 7 "" "bad"
      else SpawnOutcome.terminated 5 "" "boom"
    statOk := fun _ => true
    now := ⟨2024, 1, 2, 3, 4, 5, 0⟩ }

/-- A concrete transfer used for the backup-collision analysis. -/
def regSame : RegExportImport :=
  ⟨"HKCU\\Software\\Foo", "64", "C:\\backup\\foo.reg"⟩

/-- An instant within some clock second. -/
def tSameA : GoTime := ⟨2024, 3, 5, 10, 20, 30, 0⟩

/-- A strictly later instant within the same clock second. -/
def tSameB : GoTime := ⟨2024, 3, 5, 10, 20, 30, 500000000⟩

/-- A different instant one second later. -/
def tNextSecond : GoTime := ⟨2024, 3, 5, 10, 20, 31, 0⟩

/-- A world whose clock reads `t`, with every command succeeding and
every file present. -/
def worldAt (t : GoTime) : World :=
  { spawn := fun _ => SpawnOutcome.terminated 0 "" ""
    statOk := fun _ => true
    now := t }

/-! ### Helper lemmas -/

/-- A nonempty string has positive length. -/
theorem length_pos_of_ne_empty (s : String) (h : s ≠ "") : 0 < s.length := by
  cases s with
  | mk data =>
    cases data with
    | nil => simp at h
    | cons c cs => simp [String.length]

/-- `ExportRegKey` spawns exactly the export command, whatever the
outcome. -/
theorem exportRegKey_spawns_eq (w : World) (reg : RegExportImport) :
    (ExportRegKey w reg).1.spawns = [spawnOf (exportOptions reg)] := by
  unfold ExportRegKey ExecCmd
  cases h : w.spawn (spawnOf (exportOptions reg)) <;> simp [h]

/-- `ImportRegKey` spawns either just the backup export command, or the
backup export command followed by the import command. -/
theorem importRegKey_spawns_cases (w : World) (reg : RegExportImport) :
    (ImportRegKey w reg).1.spawns =
        [spawnOf (exportOptions (backupTransfer w.now reg))] ∨
    (ImportRegKey w reg).1.spawns =
        [spawnOf (exportOptions (backupTransfer w.now reg)),
         spawnOf (importOptions reg)] := by
  unfold ImportRegKey ExportRegKey ExecCmd
  cases h1 : w.spawn (spawnOf (exportOptions (backupTransfer w.now reg))) <;>
    cases hst : w.statOk reg.File <;>
      cases h2 : w.spawn (spawnOf (importOptions reg)) <;>
        simp [h1, h2, hst]

/-- The backup file name is the transfer file name with a nonempty
suffix, hence distinct from it. -/
theorem backupFile_ne_file (t : GoTime) (reg : RegExportImport) :
    (backupTransfer t reg).File ≠ reg.File := by
  intro h
  have hlen := congrArg String.length h
  have hdot : String.length "." = 1 := rfl
  simp only [backupTransfer, String.length_append, hdot] at hlen
  omega

/-! ### Theorems -/

/-- `PathJoin` equals joining, with a single backslash, the suffix that
starts at the first nonempty element. -/
theorem pathJoin_eq_intercalate_dropWhile (elem : List String) :
    PathJoin elem = String.intercalate "\\" (elem.dropWhile fun e => e == "") := by
  induction elem with
  | nil => rfl
  | cons e rest ih =>
      by_cases he : e = ""
      · subst he
        simpa [PathJoin] using ih
      · simp [PathJoin, he]

/-- C10: `PathJoin` skips every leading empty element and joins the rest,
from the first nonempty one, with a single backslash; empty elements after
the first nonempty one are kept, producing consecutive backslashes, and a
list of only empty strings (or the empty list) yields the empty string. -/
theorem pathJoin_spec (elem : List String) :
    PathJoin elem = String.intercalate "\\" (elem.dropWhile fun e => e == "") ∧
    PathJoin ["", "a", "", "b"] = "a\\\\b" ∧
    PathJoin ["", ""] = "" ∧
    PathJoin [] = "" :=
  ⟨pathJoin_eq_intercalate_dropWhile elem, by decide, by decide, rfl⟩

/-- C7: `ExportRegKey` spawns exactly one process: the registry export
command with arguments `export <key> <file> /y /reg:<arch>` in that
order (the `/y` flag overwrites without prompting), with no working
directory override. -/
theorem exportRegKey_command_line (w : World) (reg : RegExportImport) :
    (ExportRegKey w reg).1.spawns =
      [{ command := "reg"
         args := ["export", reg.Key, reg.File, "/y", "/reg:" ++ reg.Arch]
         dir := none
         hideWindow := true }] := by
  unfold ExportRegKey ExecCmd
  cases h : w.spawn (spawnOf (exportOptions reg)) <;>
    simp [h, spawnOf, exportOptions]

/-- C3: when the spawned process runs to termination, `ExecCmd` does not
treat a non-zero exit status as an error: it returns `Except.ok` with the
termination status (as a `uint32`) in the exit code field. -/
theorem execCmd_nonzero_exit_not_error (w : World) (options : CmdOptions)
    (s : Nat) (out errOut : String)
    (h : w.spawn (spawnOf options) = SpawnOutcome.terminated s out errOut) :
    (ExecCmd w options).2 =
      Except.ok
        { Options := options
          ExitCode := s % 4294967296
          Stdout := goTrimSpace out
          Stderr := goTrimSpace errOut } := by
  unfold ExecCmd
  rw [h]

/-- Witness for C3 at a concrete world and command exiting with status 7. -/
theorem execCmd_nonzero_exit_not_error_witness :
    (ExecCmd
        { spawn := fun _ => SpawnOutcome.terminated 7 " hi " "oops"
          statOk := fun _ => false
          now := ⟨2024, 1, 2, 3, 4, 5, 0⟩ }
        { Command := "reg", Args := ["export"], WorkingDir := "", HideWindow := true }).2 =
      Except.ok
        { Options := { Command := "reg", Args := ["export"], WorkingDir := "", HideWindow := true }
          ExitCode := 7 % 4294967296
          Stdout := goTrimSpace " hi "
          Stderr := goTrimSpace "oops" } :=
  execCmd_nonzero_exit_not_error _ _ 7 " hi " "oops" rfl

/-- C4: when the executable cannot be spawned, `ExecCmd` fails with the
underlying OS error and produces no `CmdResult`. -/
theorem execCmd_launch_failure (w : World) (options : CmdOptions)
    (osError : String)
    (h : w.spawn (spawnOf options) = SpawnOutcome.launchFailure osError) :
    (ExecCmd w options).2 = Except.error osError := by
  unfold ExecCmd
  rw [h]

/-- Witness for C4 at a concrete world whose spawn always fails. -/
theorem execCmd_launch_failure_witness :
    (ExecCmd
        { spawn := fun _ => SpawnOutcome.launchFailure "file does not exist"
          statOk := fun _ => false
          now := ⟨2024, 1, 2, 3, 4, 5, 0⟩ }
        { Command := "nope", Args := [], WorkingDir := "", HideWindow := false }).2 =
      Except.error "file does not exist" :=
  execCmd_launch_failure _ _ "file does not exist" rfl

/-- C6: for a command whose process runs to termination with a status in
`uint32` range, `ExecCmd` returns a result whose exit code equals the
child process termination status exactly and whose stdout and stderr are
the bytes the child wrote, trimmed of leading and trailing whitespace. -/
theorem execCmd_result_reflects_child (w : World) (options : CmdOptions)
    (s : Nat) (out errOut : String) (hs : s < 4294967296)
    (h : w.spawn (spawnOf options) = SpawnOutcome.terminated s out errOut) :
    ∃ r, (ExecCmd w options).2 = Except.ok r ∧
      r.ExitCode = s ∧
      r.Stdout = goTrimSpace out ∧
      r.Stderr = goTrimSpace errOut := by
  refine ⟨{ Options := options, ExitCode := s % 4294967296,
            Stdout := goTrimSpace out, Stderr := goTrimSpace errOut },
          ?_, Nat.mod_eq_of_lt hs, rfl, rfl⟩
  unfold ExecCmd
  rw [h]

/-- Witness for C6 at a concrete world and command. -/
theorem execCmd_result_reflects_child_witness :
    ∃ r,
      (ExecCmd
          { spawn := fun _ => SpawnOutcome.terminated 3 "  out  " "\n err \n"
            statOk := fun _ => true
            now := ⟨2024, 1, 2, 3, 4, 5, 0⟩ }
          { Command := "reg", Args := ["import", "f"], WorkingDir := "d", HideWindow := true }).2 =
        Except.ok r ∧
      r.ExitCode = 3 ∧
      r.Stdout = goTrimSpace "  out  " ∧
      r.Stderr = goTrimSpace "\n err \n" :=
  execCmd_result_reflects_child _ _ 3 "  out  " "\n err \n" (by decide) rfl

/-- C1: `ImportRegKey` always performs an export of the same key and
architecture before any import attempt (the first spawned process is the
backup export), writing to a file derived from the transfer file by
appending a timestamp of 4-digit year, 2-digit month, day, hour, minute
and second concatenated with no separators; this backup file name never
equals the primary transfer file. -/
theorem importRegKey_backs_up_before_import (w : World) (reg : RegExportImport) :
    (ImportRegKey w reg).1.spawns.head? =
      some (spawnOf (exportOptions (backupTransfer w.now reg))) ∧
    (backupTransfer w.now reg).Key = reg.Key ∧
    (backupTransfer w.now reg).Arch = reg.Arch ∧
    (backupTransfer w.now reg).File =
      reg.File ++ "." ++
        (pad4 w.now.year ++ pad2 w.now.month ++ pad2 w.now.day ++
          pad2 w.now.hour ++ pad2 w.now.minute ++ pad2 w.now.second) ∧
    (backupTransfer w.now reg).File ≠ reg.File := by
  refine ⟨?_, rfl, rfl, rfl, backupFile_ne_file w.now reg⟩
  rcases importRegKey_spawns_cases w reg with h | h <;> rw [h] <;> rfl

/-- C5: when `os.Stat` fails on the transfer file, `ImportRegKey` spawns
only the backup export and never the import command, and — provided the
backup export command itself launched — completes without failing. -/
theorem importRegKey_skips_missing_file (w : World) (reg : RegExportImport)
    (hstat : w.statOk reg.File = false) :
    (ImportRegKey w reg).1.spawns =
      [spawnOf (exportOptions (backupTransfer w.now reg))] ∧
    (∀ s out errOut,
      w.spawn (spawnOf (exportOptions (backupTransfer w.now reg))) =
        SpawnOutcome.terminated s out errOut →
      (ImportRegKey w reg).2 = Except.ok ()) := by
  constructor
  · unfold ImportRegKey ExportRegKey ExecCmd
    cases h1 : w.spawn (spawnOf (exportOptions (backupTransfer w.now reg))) <;>
      simp [h1, hstat]
  · intro s out errOut h1
    unfold ImportRegKey ExportRegKey ExecCmd
    simp [h1, hstat]

/-- Witness for C5: a world where the transfer file is absent and the
export runs, at a concrete transfer. -/
theorem importRegKey_skips_missing_file_witness :
    (ImportRegKey
        { spawn := fun _ => SpawnOutcome.terminated 0 "" ""
          statOk := fun _ => false
          now := ⟨2024, 1, 2, 3, 4, 5, 0⟩ }
        ⟨"HKCU\\Software\\Foo", "64", "C:\\foo.reg"⟩).1.spawns =
      [spawnOf (exportOptions (backupTransfer ⟨2024, 1, 2, 3, 4, 5, 0⟩
        ⟨"HKCU\\Software\\Foo", "64", "C:\\foo.reg"⟩))] ∧
    (∀ s out errOut,
      SpawnOutcome.terminated 0 "" "" = SpawnOutcome.terminated s out errOut →
      (ImportRegKey
          { spawn := fun _ => SpawnOutcome.terminated 0 "" ""
            statOk := fun _ => false
            now := ⟨2024, 1, 2, 3, 4, 5, 0⟩ }
          ⟨"HKCU\\Software\\Foo", "64", "C:\\foo.reg"⟩).2 = Except.ok ()) :=
  importRegKey_skips_missing_file _ _ rfl

/-- C9: every process spawned by `ExportRegKey` or `ImportRegKey` has the
hide-window flag set, so registry operations never create a visible
console window. -/
theorem regCommands_hide_window (w : World) (reg : RegExportImport) :
    (∀ p ∈ (ExportRegKey w reg).1.spawns, p.hideWindow = true) ∧
    (∀ p ∈ (ImportRegKey w reg).1.spawns, p.hideWindow = true) := by
  constructor
  · intro p hp
    rw [exportRegKey_spawns_eq] at hp
    simp only [List.mem_singleton] at hp
    subst hp
    rfl
  · intro p hp
    rcases importRegKey_spawns_cases w reg with h | h <;> rw [h] at hp <;>
      simp only [List.mem_singleton, List.mem_cons, List.not_mem_nil, or_false] at hp
    · subst hp; rfl
    · rcases hp with hp | hp <;> subst hp <;> rfl

/-- Witness for C9 at a concrete world, transfer and spawned process. -/
theorem regCommands_hide_window_witness :
    (spawnOf (exportOptions ⟨"HKCU\\Software\\Bar", "32", "C:\\bar.reg"⟩)).hideWindow = true :=
  (regCommands_hide_window
      { spawn := fun _ => SpawnOutcome.terminated 0 "" ""
        statOk := fun _ => true
        now := ⟨2024, 1, 2, 3, 4, 5, 0⟩ }
      ⟨"HKCU\\Software\\Bar", "32", "C:\\bar.reg"⟩).1
    (spawnOf (exportOptions ⟨"HKCU\\Software\\Bar", "32", "C:\\bar.reg"⟩))
    (by rw [exportRegKey_spawns_eq]; exact List.mem_singleton.mpr rfl)

/-- C2: for both registry export and registry import, a non-zero exit
code of a launched command is a soft failure: the operation still
returns `Except.ok`, after logging the exit code as an error line and,
when the captured stderr text is nonempty, logging that text too. -/
theorem regCommands_nonzero_exit_soft_failure (w : World) (reg : RegExportImport) :
    (∀ s out errOut,
      w.spawn (spawnOf (exportOptions reg)) =
        SpawnOutcome.terminated s out errOut →
      s % 4294967296 ≠ 0 →
      (ExportRegKey w reg).2 = Except.ok () ∧
      LogEntry.error (toString (s % 4294967296)) ∈ (ExportRegKey w reg).1.logs ∧
      (goTrimSpace errOut ≠ "" →
        LogEntry.error (goTrimSpace errOut ++ "\n") ∈ (ExportRegKey w reg).1.logs)) ∧
    (∀ s1 out1 err1 s2 out2 err2,
      w.spawn (spawnOf (exportOptions (backupTransfer w.now reg))) =
        SpawnOutcome.terminated s1 out1 err1 →
      w.statOk reg.File = true →
      w.spawn (spawnOf (importOptions reg)) =
        SpawnOutcome.terminated s2 out2 err2 →
      s2 % 4294967296 ≠ 0 →
      (ImportRegKey w reg).2 = Except.ok () ∧
      LogEntry.error (toString (s2 % 4294967296)) ∈ (ImportRegKey w reg).1.logs ∧
      (goTrimSpace err2 ≠ "" →
        LogEntry.error (goTrimSpace err2 ++ "\n") ∈ (ImportRegKey w reg).1.logs)) := by
  constructor
  · intro s out errOut h hne
    unfold ExportRegKey ExecCmd
    rw [h]
    refine ⟨rfl, ?_, ?_⟩
    · simp [softFailLogs, hne]
    · intro hs
      have hpos := length_pos_of_ne_empty _ hs
      simp [softFailLogs, hne, hpos]
  · intro s1 out1 err1 s2 out2 err2 h1 hst h2 hne
    unfold ImportRegKey ExportRegKey ExecCmd
    rw [h1]
    simp only [hst]
    rw [h2]
    refine ⟨rfl, ?_, ?_⟩
    · simp [softFailLogs, hne]
    · intro hs
      have hpos := length_pos_of_ne_empty _ hs
      simp [softFailLogs, hne, hpos]

/-- Witness for C2: a concrete world where the export command exits 5
with stderr text and the import command exits 7 with stderr text. -/
theorem regCommands_nonzero_exit_soft_failure_witness :
    ((ExportRegKey wSoft regSoft).2 = Except.ok () ∧
      LogEntry.error (toString (5 % 4294967296)) ∈ (ExportRegKey wSoft regSoft).1.logs ∧
      (goTrimSpace "boom" ≠ "" →
        LogEntry.error (goTrimSpace "boom" ++ "\n") ∈ (ExportRegKey wSoft regSoft).1.logs)) ∧
    ((ImportRegKey wSoft regSoft).2 = Except.ok () ∧
      LogEntry.error (toString (7 % 4294967296)) ∈ (ImportRegKey wSoft regSoft).1.logs ∧
      (goTrimSpace "bad" ≠ "" →
        LogEntry.error (goTrimSpace "bad" ++ "\n") ∈ (ImportRegKey wSoft regSoft).1.logs)) :=
  ⟨(regCommands_nonzero_exit_soft_failure wSoft regSoft).1 5 "" "boom" rfl (by decide),
   (regCommands_nonzero_exit_soft_failure wSoft regSoft).2 5 "" "boom" 7 "" "bad"
     rfl rfl rfl (by decide)⟩

/-- C8 counterexample: two successive `ImportRegKey` calls at distinct
instants within the same clock second build identical backup file names
and spawn identical backup export commands, so the second backup export
(`/y`, overwrite without prompting) overwrites the first. -/
theorem importRegKey_same_second_backup_collision :
    tSameA ≠ tSameB ∧
    formatTimestamp tSameA = formatTimestamp tSameB ∧
    (backupTransfer tSameA regSame).File = (backupTransfer tSameB regSame).File ∧
    (ImportRegKey (worldAt tSameA) regSame).1.spawns.head? =
      (ImportRegKey (worldAt tSameB) regSame).1.spawns.head? :=
  ⟨by decide, rfl, rfl, rfl⟩

/-- C8 amended: two `ImportRegKey` calls whose clock instants format to
different timestamps (in particular, calls in different clock seconds)
produce distinct backup file names; within the same formatted second the
backup file names coincide. -/
theorem importRegKey_distinct_backups_of_distinct_timestamps
    (w1 w2 : World) (reg : RegExportImport)
    (h : formatTimestamp w1.now ≠ formatTimestamp w2.now) :
    (backupTransfer w1.now reg).File ≠ (backupTransfer w2.now reg).File := by
  intro hfile
  apply h
  have hd := congrArg String.data hfile
  simp only [backupTransfer, String.data_append, List.append_assoc] at hd
  exact String.ext (List.append_cancel_left (List.append_cancel_left hd))

/-- Witness for the amended C8 at two instants one second apart. -/
theorem importRegKey_distinct_backups_witness :
    (backupTransfer (worldAt tSameA).now regSame).File ≠
      (backupTransfer (worldAt tNextSecond).now regSame).File :=
  importRegKey_distinct_backups_of_distinct_timestamps
    (worldAt tSameA) (worldAt tNextSecond) regSame (by decide)

end Portableapps
